import Mathlib

/-!
Verification development for the Team Onboarding settings panel of the
dashboard (TeamOnboarding.tsx, WelcomeMessageConfigurationField.tsx,
WelcomeMessageEditor.tsx, WelcomeMessagePreview.tsx, and the
OrganizationJoinModal component).

The embedding translates the JavaScript/TypeScript level behaviour of the
components: remote protobuf settings objects are full records, the objects
the client constructs and submits are records of possibly-absent keys
(`JSField`), object spread is modelled field by field, and JS truthiness of
optional strings is modelled explicitly.
-/

namespace GitpodOnboarding

/-- A key of a JavaScript object literal: either absent from the object, or
present with a value (the value type itself may be `Option _` when the code
can store `undefined` under a present key). -/
inductive JSField (α : Type) where
  | absent : JSField α
  | val : α → JSField α
deriving DecidableEq, Repr

/-- JS object spread `x: base.x` overridden by an object that may or may not
carry the key: the override's key wins when present. -/
def jsOverride {α : Type} (base ov : JSField α) : JSField α :=
  match ov with
  | .val a => .val a
  | .absent => base

/-- JS truthiness of a `string | undefined` value: `undefined` and the empty
string are falsy. -/
def jsStrTruthy : Option String → Bool
  | none => false
  | some s => !(s == "")

/-- Remote `OnboardingSettings_WelcomeMessage` protobuf message
(proto3 scalar fields are always present, with "" as absent marker). -/
structure WelcomeMessage where
  enabled : Bool
  message : String
  featuredMemberId : String
  featuredMemberResolvedAvatarUrl : String
deriving DecidableEq, Repr

/-- Remote `OnboardingSettings` protobuf message; `welcomeMessage` is a
message-typed field and so may be absent. -/
structure OnboardingSettings where
  internalLink : String
  welcomeMessage : Option WelcomeMessage
  recommendedRepositories : List String
deriving DecidableEq, Repr

/-- Remote `OrganizationSettings`: the `onboardingSettings` sub-message plus
two representative unrelated top-level fields, used to express what the
top-level spread preserves. -/
structure OrganizationSettings where
  onboardingSettings : Option OnboardingSettings
  workspaceSharingDisabled : Bool
  defaultWorkspaceImage : String
deriving DecidableEq, Repr

/-- The `welcomeMessage` object literal a client call site builds: every key
may be absent, and `message` / `featuredMemberId` may hold `undefined`. -/
structure WelcomeMessageUpdate where
  enabled : JSField Bool
  message : JSField (Option String)
  featuredMemberId : JSField (Option String)
  featuredMemberResolvedAvatarUrl : JSField (Option String)
deriving DecidableEq, Repr

/-- The `onboardingSettings` object literal a client call site builds. -/
structure OnboardingSettingsUpdate where
  internalLink : JSField (Option String)
  welcomeMessage : JSField (Option WelcomeMessageUpdate)
  recommendedRepositories : JSField (List String)
deriving DecidableEq, Repr

/-- A `Partial<PlainMessage<OrganizationSettings>>` object as constructed by
the client and as passed to `mutateAsync` after the top-level spread. -/
structure SettingsUpdate where
  onboardingSettings : JSField (Option OnboardingSettingsUpdate)
  workspaceSharingDisabled : JSField Bool
  defaultWorkspaceImage : JSField String
deriving DecidableEq, Repr

/-- A welcomeMessage object with no keys at all (spread of `undefined`). -/
def emptyWelcomeMessageUpdate : WelcomeMessageUpdate :=
  { enabled := .absent
  , message := .absent
  , featuredMemberId := .absent
  , featuredMemberResolvedAvatarUrl := .absent }

/-- View of a remote welcomeMessage message as a JS object (all keys
present; scalar strings are defined values). -/
def WelcomeMessage.toUpdate (w : WelcomeMessage) : WelcomeMessageUpdate :=
  { enabled := .val w.enabled
  , message := .val (some w.message)
  , featuredMemberId := .val (some w.featuredMemberId)
  , featuredMemberResolvedAvatarUrl := .val (some w.featuredMemberResolvedAvatarUrl) }

/-- View of a remote onboardingSettings message as a JS object. -/
def OnboardingSettings.toUpdate (o : OnboardingSettings) : OnboardingSettingsUpdate :=
  { internalLink := .val (some o.internalLink)
  , welcomeMessage := .val (o.welcomeMessage.map WelcomeMessage.toUpdate)
  , recommendedRepositories := .val o.recommendedRepositories }

/-- View of the remote organization settings snapshot as a JS object. -/
def OrganizationSettings.toUpdate (s : OrganizationSettings) : SettingsUpdate :=
  { onboardingSettings := .val (s.onboardingSettings.map OnboardingSettings.toUpdate)
  , workspaceSharingDisabled := .val s.workspaceSharingDisabled
  , defaultWorkspaceImage := .val s.defaultWorkspaceImage }

/-- Field-by-field JS spread of two top-level settings objects,
`\x7b...base, ...ov\x7d`. -/
def spreadOrgSettings (base ov : SettingsUpdate) : SettingsUpdate :=
  { onboardingSettings := jsOverride base.onboardingSettings ov.onboardingSettings
  , workspaceSharingDisabled := jsOverride base.workspaceSharingDisabled ov.workspaceSharingDisabled
  , defaultWorkspaceImage := jsOverride base.defaultWorkspaceImage ov.defaultWorkspaceImage }

/-- Field-by-field JS spread of two welcomeMessage objects. -/
def spreadWelcomeMessage (base ov : WelcomeMessageUpdate) : WelcomeMessageUpdate :=
  { enabled := jsOverride base.enabled ov.enabled
  , message := jsOverride base.message ov.message
  , featuredMemberId := jsOverride base.featuredMemberId ov.featuredMemberId
  , featuredMemberResolvedAvatarUrl :=
      jsOverride base.featuredMemberResolvedAvatarUrl ov.featuredMemberResolvedAvatarUrl }

/-- The object `\x7b...settings, ...newSettings\x7d` that
`handleUpdateTeamSettings` passes to `updateTeamSettings.mutateAsync`;
spreading an undefined snapshot contributes no keys. -/
def mergedOrg (settings : Option OrganizationSettings) (newSettings : SettingsUpdate) :
    SettingsUpdate :=
  match settings with
  | none => newSettings
  | some s => spreadOrgSettings s.toUpdate newSettings

/-- Option-chain `settings?.onboardingSettings?.welcomeMessage`. -/
def remoteWM (settings : Option OrganizationSettings) : Option WelcomeMessage :=
  (settings.bind (·.onboardingSettings)).bind (·.welcomeMessage)

/-- Option-chain `settings?.onboardingSettings?.welcomeMessage?.message`. -/
def remoteMessage (settings : Option OrganizationSettings) : Option String :=
  (remoteWM settings).map (·.message)

/-- Option-chain to the server-resolved avatar URL. -/
def remoteAvatarUrl (settings : Option OrganizationSettings) : Option String :=
  (remoteWM settings).map (·.featuredMemberResolvedAvatarUrl)

/-- The welcomeMessage key found under the onboardingSettings key of a
submitted settings object (absent when either key is missing). -/
def SettingsUpdate.welcomeMessageOf (u : SettingsUpdate) : JSField (Option WelcomeMessageUpdate) :=
  match u.onboardingSettings with
  | .val (some o) => o.welcomeMessage
  | _ => .absent

/-- Errors `handleUpdateTeamSettings` can complete with: the two thrown
precondition errors and the re-thrown remote mutation error. -/
inductive UpdateError where
  | noOrganization
  | noPermission
  | remote (msg : String)
deriving DecidableEq, Repr

/-- Observable outcome of one call to `handleUpdateTeamSettings`: how the
returned promise settles, the arguments passed to `mutateAsync`, the toasts
raised, and the errors logged to the console. -/
structure UpdateOutcome where
  result : Except UpdateError Unit
  mutateCalls : List SettingsUpdate
  toasts : List String
  logged : List String
deriving Repr

/-- Model of `handleUpdateTeamSettings` in TeamOnboarding.tsx: throw
"no organization selected" when `org?.id` is falsy, throw the permission
error for non-owners, otherwise call `mutateAsync` with the spread-merged
object; on success toast a confirmation, on failure either re-throw
(`options?.throwMutateError`) or toast the error text and log it. The
outcome of the remote call is an input (`mutateResult`). -/
def handleUpdateTeamSettings (orgId : Option String) (isOwner : Bool)
    (settings : Option OrganizationSettings) (newSettings : SettingsUpdate)
    (throwMutateError : Bool) (mutateResult : Except String Unit) : UpdateOutcome :=
  if jsStrTruthy orgId = false then
    { result := .error .noOrganization, mutateCalls := [], toasts := [], logged := [] }
  else if isOwner = false then
    { result := .error .noPermission, mutateCalls := [], toasts := [], logged := [] }
  else
    let merged := mergedOrg settings newSettings
    match mutateResult with
    | .ok _ =>
        { result := .ok ()
        , mutateCalls := [merged]
        , toasts := ["Organization settings updated"]
        , logged := [] }
    | .error msg =>
        if throwMutateError then
          { result := .error (.remote msg), mutateCalls := [merged], toasts := [], logged := [] }
        else
          { result := .ok ()
          , mutateCalls := [merged]
          , toasts := ["Failed to update organization settings: " ++ msg]
          , logged := [msg] }

/-- The update object submitted by `handleUpdateInternalLink`:
`\x7bonboardingSettings: \x7binternalLink\x7d\x7d` — the inner object
literal carries only the internalLink key. -/
def handleUpdateInternalLink (internalLink : Option String) : SettingsUpdate :=
  { onboardingSettings := .val (some
      { internalLink := .val internalLink
      , welcomeMessage := .absent
      , recommendedRepositories := .absent })
  , workspaceSharingDisabled := .absent
  , defaultWorkspaceImage := .absent }

/-- The spread base `settings?.onboardingSettings?.welcomeMessage` as a JS
object: the remote message's keys when present, no keys when the chain is
undefined. -/
def wmSpreadBase (settings : Option OrganizationSettings) : WelcomeMessageUpdate :=
  ((remoteWM settings).map WelcomeMessage.toUpdate).getD emptyWelcomeMessageUpdate

/-- Model of `handleUpdateWelcomeMessage` in
WelcomeMessageConfigurationField.tsx: wraps the caller's welcomeMessage
object in `\x7bonboardingSettings: \x7bwelcomeMessage: \x7b...remote,
...newSettings\x7d, recommendedRepositories: remote ?? []\x7d\x7d`. -/
def handleUpdateWelcomeMessage (settings : Option OrganizationSettings)
    (newSettings : WelcomeMessageUpdate) : SettingsUpdate :=
  { onboardingSettings := .val (some
      { internalLink := .absent
      , welcomeMessage := .val (some (spreadWelcomeMessage (wmSpreadBase settings) newSettings))
      , recommendedRepositories :=
          .val (((settings.bind (·.onboardingSettings)).map (·.recommendedRepositories)).getD []) })
  , workspaceSharingDisabled := .absent
  , defaultWorkspaceImage := .absent }

/-- What the switch's `onCheckedChange` handler does: either abort with a
toast, or hand an update object to `handleUpdateWelcomeMessage`. -/
inductive ToggleOutcome where
  | blocked (noticeMsg : String)
  | submitted (u : SettingsUpdate)
deriving DecidableEq, Repr

/-- Model of the `SwitchInputField` `onCheckedChange` handler in
WelcomeMessageConfigurationField.tsx: on enabling with a falsy remote
message, toast "Please set up a welcome message first." and return;
otherwise call `handleUpdateWelcomeMessage(\x7benabled: checked\x7d)`. -/
def welcomeMessageToggle (settings : Option OrganizationSettings) (checked : Bool) :
    ToggleOutcome :=
  if checked = true ∧ jsStrTruthy (remoteMessage settings) = false then
    .blocked "Please set up a welcome message first."
  else
    .submitted (handleUpdateWelcomeMessage settings
      { enabled := .val checked
      , message := .absent
      , featuredMemberId := .absent
      , featuredMemberResolvedAvatarUrl := .absent })

/-- The welcomeMessage object the editor's `updateWelcomeMessage` submit
handler builds in WelcomeMessageEditor.tsx:
`\x7bmessage, featuredMemberId, enabled: settings?.enabled ?? false\x7d`
(all three keys present; the two draft values may be undefined). -/
def updateWelcomeMessage (wm : Option WelcomeMessage)
    (message featuredMemberId : Option String) : WelcomeMessageUpdate :=
  { enabled := .val ((wm.map (·.enabled)).getD false)
  , message := .val message
  , featuredMemberId := .val featuredMemberId
  , featuredMemberResolvedAvatarUrl := .absent }

/-- Local React state of `WelcomeMessageEditorModal`: the two draft fields
and whether the modal is shown. -/
structure EditorState where
  message : Option String
  featuredMemberId : Option String
  isOpen : Bool
deriving DecidableEq, Repr

/-- Events the editor modal reacts to. `cancel` is the Cancel button,
`closeModal` the modal's onClose (close icon / overlay click); both only
run `setIsOpen(false)`. -/
inductive EditorEvent where
  | openEditor
  | cancel
  | closeModal
  | setMessage (v : String)
  | setFeatured (v : Option String)
  | save
deriving DecidableEq, Repr

/-- The `useState(settings?.message)` / `useState(settings?.featuredMemberId)`
initializers: they run once, when the editor component mounts. -/
def editorInit (wm : Option WelcomeMessage) : EditorState :=
  { message := wm.map (·.message)
  , featuredMemberId := wm.map (·.featuredMemberId)
  , isOpen := false }

/-- One step of the editor component: the new local state together with the
welcomeMessage object submitted by this event, if any. Only `save` submits;
opening, canceling and closing leave the draft untouched. -/
def editorStep (wm : Option WelcomeMessage) (st : EditorState) :
    EditorEvent → EditorState × Option WelcomeMessageUpdate
  | .openEditor => ({ st with isOpen := true }, none)
  | .cancel => ({ st with isOpen := false }, none)
  | .closeModal => ({ st with isOpen := false }, none)
  | .setMessage v => ({ st with message := some v }, none)
  | .setFeatured v => ({ st with featuredMemberId := v }, none)
  | .save => (st, some (updateWelcomeMessage wm st.message st.featuredMemberId))

/-- Run a sequence of editor events, collecting every submission made. -/
def editorRun (wm : Option WelcomeMessage) (st : EditorState) :
    List EditorEvent → EditorState × List WelcomeMessageUpdate
  | [] => (st, [])
  | e :: es =>
    let step := editorStep wm st e
    let rest := editorRun wm step.1 es
    (rest.1, step.2.toList ++ rest.2)

/-- Events seen by the internal-link input of TeamOnboarding.tsx:
`settingsChanged s` is the `useEffect` with dependency `[settings]` firing
after the settings query delivered a (new) value `s`, and `editInternalLink`
is the user typing into the field (`setInternalLink`). -/
inductive PageEvent where
  | settingsChanged (s : Option OrganizationSettings)
  | editInternalLink (v : String)
deriving Repr

/-- One step of the internal-link local state: the effect overwrites the
input with `settings.onboardingSettings?.internalLink` whenever settings are
defined (`if (settings)` is its only guard). -/
def internalLinkStep (st : Option String) : PageEvent → Option String
  | .settingsChanged none => st
  | .settingsChanged (some s) => s.onboardingSettings.map (·.internalLink)
  | .editInternalLink v => some v

/-- Run a sequence of page events over the internal-link state
(initially `useState(undefined)`). -/
def internalLinkRun (st : Option String) : List PageEvent → Option String
  | [] => st
  | e :: es => internalLinkRun (internalLinkStep st e) es

/-- The conditional message block of WelcomeMessagePreview.tsx. -/
structure MessageBlock where
  avatarShown : Bool
  avatarUrl : Option String
  markdownSource : String
deriving DecidableEq, Repr

/-- What one render of `WelcomeMessagePreview` puts on screen. -/
structure PreviewRender where
  headingShown : Bool
  subheadingShown : Bool
  messageBlock : Option MessageBlock
deriving DecidableEq, Repr

/-- Model of `WelcomeMessagePreview`: heading shown unless `hideHeader`,
subheading unconditional, and the message block (avatar guarded by its own
truthiness, plus the markdown body) rendered only when the remote message is
truthy. -/
def welcomeMessagePreviewRender (settings : Option OrganizationSettings)
    (hideHeader : Bool) : PreviewRender :=
  let avatarUrl := remoteAvatarUrl settings
  let welcomeMessage := remoteMessage settings
  { headingShown := !hideHeader
  , subheadingShown := true
  , messageBlock :=
      if jsStrTruthy welcomeMessage then
        some { avatarShown := jsStrTruthy avatarUrl
             , avatarUrl := avatarUrl
             , markdownSource := welcomeMessage.getD "" }
      else none }

/-- Option-chain `orgSettings?.onboardingSettings?.welcomeMessage?.enabled`
as used by `OrganizationJoinModal` (falsy when any level is absent). -/
def welcomeEnabled (orgSettings : Option OrganizationSettings) : Bool :=
  ((remoteWM orgSettings).map (·.enabled)).getD false

/-- Local state of `OrganizationJoinModal`: whether localStorage is
available, whether the persisted `newUserOnboardingPending` flag is set, and
the `orgOnboardingPending` React state. -/
structure JoinModalState where
  storageOk : Bool
  storageFlag : Bool
  pending : Bool
deriving DecidableEq, Repr

/-- Mounting the join modal: `initialOrgOnboardingPending` reads the flag
when storage is available (undefined otherwise), and the pending state is
that value `?? false`. -/
def joinModalMount (storageOk storageFlag : Bool) : JoinModalState :=
  { storageOk := storageOk
  , storageFlag := storageFlag
  , pending := if storageOk then storageFlag else false }

/-- `dismissOrgOnboardingPending`: remove the persisted flag when storage is
available and clear the pending state. -/
def dismissPending (st : JoinModalState) : JoinModalState :=
  { st with
    storageFlag := if st.storageOk then false else st.storageFlag
  , pending := false }

/-- The join modal's `useEffect`: when the org-wide welcome message is not
enabled, dismiss so the modal cannot show in the future. -/
def joinModalEffect (orgSettings : Option OrganizationSettings)
    (st : JoinModalState) : JoinModalState :=
  if welcomeEnabled orgSettings = false then dismissPending st else st

/-- The join modal's render: `null` when the welcome message is not enabled,
otherwise a modal whose visibility is the pending state. -/
def joinModalRender (orgSettings : Option OrganizationSettings)
    (st : JoinModalState) : Option Bool :=
  if welcomeEnabled orgSettings = false then none else some st.pending

/-- Sample remote welcome message used by concrete counterexamples and
witnesses. -/
def wmSample : WelcomeMessage :=
  { enabled := true
  , message := "Hello team"
  , featuredMemberId := "m1"
  , featuredMemberResolvedAvatarUrl := "https://avatars.example.com/a1.png" }

/-- Sample remote onboarding settings. -/
def obSample : OnboardingSettings :=
  { internalLink := "https://old.example.com"
  , welcomeMessage := some wmSample
  , recommendedRepositories := ["repoA"] }

/-- Sample remote organization settings snapshot. -/
def orgSample : OrganizationSettings :=
  { onboardingSettings := some obSample
  , workspaceSharingDisabled := true
  , defaultWorkspaceImage := "img" }

/-- C1, counterexample: the claim says submitting the internal-link form
merges `\x7bonboardingSettings: \x7binternalLink: v\x7d\x7d` so that every
other field of onboardingSettings keeps its snapshot value. At the concrete
snapshot `orgSample` (whose welcomeMessage is present with enabled = true),
update() passes `mutateAsync` an object whose onboardingSettings carries no
welcomeMessage key at all, so welcomeMessage did not keep its snapshot
value: the top-level spread replaced onboardingSettings wholesale. -/
theorem C1_shallow_merge_counterexample :
    (handleUpdateTeamSettings (some "org1") true (some orgSample)
        (handleUpdateInternalLink (some "https://new.example.com")) false
        (Except.ok ())).mutateCalls
      = [mergedOrg (some orgSample) (handleUpdateInternalLink (some "https://new.example.com"))]
    ∧ (mergedOrg (some orgSample)
        (handleUpdateInternalLink (some "https://new.example.com"))).welcomeMessageOf
      = JSField.absent
    ∧ (OrganizationSettings.toUpdate orgSample).welcomeMessageOf
      = JSField.val (some (WelcomeMessage.toUpdate wmSample))
    ∧ JSField.absent ≠ JSField.val (some (WelcomeMessage.toUpdate wmSample)) := by
  refine ⟨by decide, by decide, by decide, by decide⟩

/-- C1, amended: update() spreads the Partial over the snapshot at the top
level only: omitted top-level fields (here workspaceSharingDisabled and
defaultWorkspaceImage) retain their snapshot values, but the provided
onboardingSettings key replaces the snapshot's wholesale, so the merged
object's onboardingSettings contains only internalLink — its welcomeMessage
and recommendedRepositories keys are absent rather than retained. -/
theorem C1_top_level_spread (s : OrganizationSettings) (v : Option String) :
    (mergedOrg (some s) (handleUpdateInternalLink v)).workspaceSharingDisabled
      = JSField.val s.workspaceSharingDisabled
    ∧ (mergedOrg (some s) (handleUpdateInternalLink v)).defaultWorkspaceImage
      = JSField.val s.defaultWorkspaceImage
    ∧ (mergedOrg (some s) (handleUpdateInternalLink v)).onboardingSettings
      = JSField.val (some
          { internalLink := JSField.val v
          , welcomeMessage := JSField.absent
          , recommendedRepositories := JSField.absent }) := by
  refine ⟨rfl, rfl, rfl⟩

/-- C2: with a falsy organization id, update() completes with the
"no organization selected" error and never calls `mutateAsync`; with an
organization selected but a non-owner caller, it completes with the
permission error and never calls `mutateAsync`. -/
theorem C2_precondition_errors (orgId : Option String) (isOwner : Bool)
    (settings : Option OrganizationSettings) (newSettings : SettingsUpdate)
    (throwMutateError : Bool) (mutateResult : Except String Unit) :
    (jsStrTruthy orgId = false →
      (handleUpdateTeamSettings orgId isOwner settings newSettings throwMutateError
          mutateResult).result = Except.error UpdateError.noOrganization
      ∧ (handleUpdateTeamSettings orgId isOwner settings newSettings throwMutateError
          mutateResult).mutateCalls = [])
    ∧ (jsStrTruthy orgId = true → isOwner = false →
      (handleUpdateTeamSettings orgId isOwner settings newSettings throwMutateError
          mutateResult).result = Except.error UpdateError.noPermission
      ∧ (handleUpdateTeamSettings orgId isOwner settings newSettings throwMutateError
          mutateResult).mutateCalls = []) := by
  constructor
  · intro h
    simp [handleUpdateTeamSettings, h]
  · intro h howner
    simp [handleUpdateTeamSettings, h, howner]

/-- C2 witness: both precondition failures evaluated at concrete inputs. -/
theorem C2_precondition_errors_witness :
    (handleUpdateTeamSettings none true (some orgSample)
        (handleUpdateInternalLink none) false (Except.ok ())).result
      = Except.error UpdateError.noOrganization
    ∧ (handleUpdateTeamSettings none true (some orgSample)
        (handleUpdateInternalLink none) false (Except.ok ())).mutateCalls = []
    ∧ (handleUpdateTeamSettings (some "org1") false (some orgSample)
        (handleUpdateInternalLink none) false (Except.ok ())).result
      = Except.error UpdateError.noPermission
    ∧ (handleUpdateTeamSettings (some "org1") false (some orgSample)
        (handleUpdateInternalLink none) false (Except.ok ())).mutateCalls = [] := by
  have h1 := (C2_precondition_errors none true (some orgSample)
    (handleUpdateInternalLink none) false (Except.ok ())).1 (by decide)
  have h2 := (C2_precondition_errors (some "org1") false (some orgSample)
    (handleUpdateInternalLink none) false (Except.ok ())).2 (by decide) rfl
  exact ⟨h1.1, h1.2, h2.1, h2.2⟩

/-- C3: whenever the remote welcome message is falsy (absent or empty),
flipping the switch to true is blocked with the "set up a welcome message
first" toast and no update object is submitted; flipping it to false is
never blocked — for every settings state it produces a submission. -/
theorem C3_enable_requires_message (settings : Option OrganizationSettings)
    (h : jsStrTruthy (remoteMessage settings) = false) :
    welcomeMessageToggle settings true
      = ToggleOutcome.blocked "Please set up a welcome message first."
    ∧ ∀ s2 : Option OrganizationSettings,
        welcomeMessageToggle s2 false
          = ToggleOutcome.submitted (handleUpdateWelcomeMessage s2
              { enabled := JSField.val false
              , message := JSField.absent
              , featuredMemberId := JSField.absent
              , featuredMemberResolvedAvatarUrl := JSField.absent }) := by
  constructor
  · simp [welcomeMessageToggle, h]
  · intro s2
    simp [welcomeMessageToggle]

/-- C3 witness: a settings state whose welcome message is the empty string;
enabling is blocked there. -/
theorem C3_enable_requires_message_witness :
    jsStrTruthy (remoteMessage (some
      { onboardingSettings := some
          { internalLink := ""
          , welcomeMessage := some
              { enabled := false, message := "", featuredMemberId := ""
              , featuredMemberResolvedAvatarUrl := "" }
          , recommendedRepositories := [] }
      , workspaceSharingDisabled := false
      , defaultWorkspaceImage := "" })) = false
    ∧ welcomeMessageToggle (some
      { onboardingSettings := some
          { internalLink := ""
          , welcomeMessage := some
              { enabled := false, message := "", featuredMemberId := ""
              , featuredMemberResolvedAvatarUrl := "" }
          , recommendedRepositories := [] }
      , workspaceSharingDisabled := false
      , defaultWorkspaceImage := "" }) true
      = ToggleOutcome.blocked "Please set up a welcome message first." := by
  refine ⟨by decide, ?_⟩
  exact (C3_enable_requires_message _ (by decide)).1

/-- C4, counterexample: the claim says that after modifying the draft and
canceling, the draft seen on the next open equals the remote pre-edit
values, because the draft is copied from remote settings at open time. In
the code the draft is the `useState` initializer's value, copied once at
component mount; cancel only sets isOpen to false. Concretely: starting
from a mount with remote message "Hello team", the trace open, edit to
"Edited draft", cancel, open again makes no submission (remote settings are
indeed untouched) but ends with draft message "Edited draft", not the
remote "Hello team" the claim requires. -/
theorem C4_draft_persists_counterexample :
    (editorRun (some wmSample) (editorInit (some wmSample))
        [EditorEvent.openEditor, EditorEvent.setMessage "Edited draft",
         EditorEvent.cancel, EditorEvent.openEditor]).2 = []
    ∧ (editorRun (some wmSample) (editorInit (some wmSample))
        [EditorEvent.openEditor, EditorEvent.setMessage "Edited draft",
         EditorEvent.cancel, EditorEvent.openEditor]).1.message = some "Edited draft"
    ∧ wmSample.message = "Hello team"
    ∧ some "Edited draft" ≠ (some "Hello team" : Option String) := by
  refine ⟨by decide, by decide, by decide, by decide⟩

/-- C4, amended: canceling or closing the editor (and opening it) performs
no update call and leaves both the remote settings and the local draft
untouched; but the draft is copied from remote settings only once, by the
state initializers at component mount, so a modified draft persists across
cancel and is what the next open shows. -/
theorem C4_cancel_discards_nothing (wm : Option WelcomeMessage) (st : EditorState) :
    (editorStep wm st EditorEvent.cancel).2 = none
    ∧ (editorStep wm st EditorEvent.closeModal).2 = none
    ∧ (editorStep wm st EditorEvent.openEditor).2 = none
    ∧ (editorStep wm st EditorEvent.cancel).1.message = st.message
    ∧ (editorStep wm st EditorEvent.cancel).1.featuredMemberId = st.featuredMemberId
    ∧ (editorStep wm st EditorEvent.closeModal).1.message = st.message
    ∧ (editorStep wm st EditorEvent.closeModal).1.featuredMemberId = st.featuredMemberId
    ∧ (editorStep wm st EditorEvent.openEditor).1.message = st.message
    ∧ (editorStep wm st EditorEvent.openEditor).1.featuredMemberId = st.featuredMemberId
    ∧ (editorInit wm).message = wm.map (·.message)
    ∧ (editorInit wm).featuredMemberId = wm.map (·.featuredMemberId) := by
  refine ⟨rfl, rfl, rfl, rfl, rfl, rfl, rfl, rfl, rfl, rfl, rfl⟩

/-- C5: for every remote settings state and every draft, saving the editor
submits a welcomeMessage object whose enabled key is exactly the remote
enabled value (`settings?.enabled ?? false`), whose message and
featuredMemberId keys are the draft values, and whose resolved-avatar key is
whatever the remote object carried — so a save never changes enabled. -/
theorem C5_save_preserves_enabled (settings : Option OrganizationSettings)
    (message featuredMemberId : Option String) :
    (handleUpdateWelcomeMessage settings
        (updateWelcomeMessage (remoteWM settings) message featuredMemberId)).welcomeMessageOf
      = JSField.val (some
          { enabled := JSField.val (((remoteWM settings).map (·.enabled)).getD false)
          , message := JSField.val message
          , featuredMemberId := JSField.val featuredMemberId
          , featuredMemberResolvedAvatarUrl :=
              (wmSpreadBase settings).featuredMemberResolvedAvatarUrl }) := by
  rfl

/-- A refetched settings snapshot carrying the same internal link as
`orgSample` but different data elsewhere (the welcome message was enabled),
as delivered by the settings query after an unrelated update. -/
def orgRefetched : OrganizationSettings :=
  { onboardingSettings := some
      { internalLink := "https://old.example.com"
      , welcomeMessage := some { wmSample with enabled := false }
      , recommendedRepositories := ["repoA"] }
  , workspaceSharingDisabled := true
  , defaultWorkspaceImage := "img" }

/-- C6, counterexample: the claim says the internal-link input is set from
remote settings only when settings first become available and that a later
refetch never overwrites an in-progress edit. Concretely: settings arrive
(link "https://old.example.com"), the user types "https://in-progress", and
then a refetch delivers a changed snapshot — the effect, whose only guard
is that settings are defined, runs again and the local value ends as
"https://old.example.com", clobbering the in-progress edit. -/
theorem C6_resync_counterexample :
    internalLinkRun none
        [PageEvent.settingsChanged (some orgSample),
         PageEvent.editInternalLink "https://in-progress",
         PageEvent.settingsChanged (some orgRefetched)]
      = some "https://old.example.com"
    ∧ orgSample ≠ orgRefetched
    ∧ some "https://old.example.com" ≠ (some "https://in-progress" : Option String) := by
  refine ⟨by decide, by decide, by decide⟩

/-- C6, amended: the internal-link input is synchronized from remote
settings on every firing of the settings effect, not only the first: for
every prior local value, a defined settings value overwrites the input with
the remote link (and an undefined settings value leaves it alone). A
refetch that delivers changed settings therefore overwrites an in-progress
edit. -/
theorem C6_effect_always_resyncs (st : Option String) (s : OrganizationSettings) :
    internalLinkStep st (PageEvent.settingsChanged (some s))
      = s.onboardingSettings.map (·.internalLink)
    ∧ internalLinkStep st (PageEvent.settingsChanged none) = st := by
  exact ⟨rfl, rfl⟩

/-- C7: when the remote write rejects, update() by default completes
normally, raises the failure toast made of the fixed text followed by the
error message, and logs the error; with throwMutateError set, the same
error is re-thrown as the call's own failure and no toast is raised. -/
theorem C7_failure_handling (orgId : Option String)
    (settings : Option OrganizationSettings) (newSettings : SettingsUpdate)
    (msg : String) (horg : jsStrTruthy orgId = true) :
    (handleUpdateTeamSettings orgId true settings newSettings false
        (Except.error msg)).result = Except.ok ()
    ∧ (handleUpdateTeamSettings orgId true settings newSettings false
        (Except.error msg)).toasts
      = ["Failed to update organization settings: " ++ msg]
    ∧ (handleUpdateTeamSettings orgId true settings newSettings false
        (Except.error msg)).logged = [msg]
    ∧ (handleUpdateTeamSettings orgId true settings newSettings true
        (Except.error msg)).result = Except.error (UpdateError.remote msg)
    ∧ (handleUpdateTeamSettings orgId true settings newSettings true
        (Except.error msg)).toasts = [] := by
  simp [handleUpdateTeamSettings, horg]

/-- C7 witness: failure handling evaluated at a concrete rejected write. -/
theorem C7_failure_handling_witness :
    jsStrTruthy (some "org1") = true
    ∧ (handleUpdateTeamSettings (some "org1") true (some orgSample)
        (handleUpdateInternalLink (some "x")) false
        (Except.error "boom")).toasts
      = ["Failed to update organization settings: boom"]
    ∧ (handleUpdateTeamSettings (some "org1") true (some orgSample)
        (handleUpdateInternalLink (some "x")) true
        (Except.error "boom")).result = Except.error (UpdateError.remote "boom") := by
  have h := C7_failure_handling (some "org1") (some orgSample)
    (handleUpdateInternalLink (some "x")) "boom" (by decide)
  exact ⟨by decide, h.2.1, h.2.2.2.1⟩

/-- C8: any toggle that passes validation (disabling, or enabling with a
truthy remote message) is submitted at once as
`handleUpdateWelcomeMessage(\x7benabled: checked\x7d)`, and the
welcomeMessage object inside that submission is exactly the remote
welcomeMessage keys with only the enabled key replaced by the toggle value:
message, featuredMemberId and the resolved avatar equal their current
remote values, and nothing else enters the submission. -/
theorem C8_toggle_submits_full_subobject (settings : Option OrganizationSettings)
    (checked : Bool)
    (h : checked = false ∨ jsStrTruthy (remoteMessage settings) = true) :
    welcomeMessageToggle settings checked
      = ToggleOutcome.submitted (handleUpdateWelcomeMessage settings
          { enabled := JSField.val checked
          , message := JSField.absent
          , featuredMemberId := JSField.absent
          , featuredMemberResolvedAvatarUrl := JSField.absent })
    ∧ (handleUpdateWelcomeMessage settings
          { enabled := JSField.val checked
          , message := JSField.absent
          , featuredMemberId := JSField.absent
          , featuredMemberResolvedAvatarUrl := JSField.absent }).welcomeMessageOf
      = JSField.val (some { wmSpreadBase settings with enabled := JSField.val checked }) := by
  constructor
  · rcases h with hc | hm
    · subst hc
      simp [welcomeMessageToggle]
    · simp [welcomeMessageToggle, hm]
  · rfl

/-- C8 witness: enabling at a settings state with a truthy remote message. -/
theorem C8_toggle_submits_full_subobject_witness :
    jsStrTruthy (remoteMessage (some orgSample)) = true
    ∧ welcomeMessageToggle (some orgSample) true
      = ToggleOutcome.submitted (handleUpdateWelcomeMessage (some orgSample)
          { enabled := JSField.val true
          , message := JSField.absent
          , featuredMemberId := JSField.absent
          , featuredMemberResolvedAvatarUrl := JSField.absent }) := by
  refine ⟨by decide, ?_⟩
  exact (C8_toggle_submits_full_subobject (some orgSample) true (Or.inr (by decide))).1

/-- C9: whenever the remote welcome message is falsy (absent or empty), one
render of the preview shows no message block at all — hence neither the
markdown body nor the avatar, whatever the resolved avatar URL in the
settings is — while the subheading is always rendered and the heading is
rendered whenever hiding was not requested. -/
theorem C9_empty_message_renders_no_block (settings : Option OrganizationSettings)
    (hideHeader : Bool)
    (h : jsStrTruthy (remoteMessage settings) = false) :
    (welcomeMessagePreviewRender settings hideHeader).messageBlock = none
    ∧ (welcomeMessagePreviewRender settings hideHeader).subheadingShown = true
    ∧ (hideHeader = false →
        (welcomeMessagePreviewRender settings hideHeader).headingShown = true) := by
  refine ⟨?_, rfl, ?_⟩
  · simp [welcomeMessagePreviewRender, h]
  · intro hh
    simp [welcomeMessagePreviewRender, hh]

/-- C9 witness: an empty message together with a present resolved avatar
URL still renders no message block. -/
theorem C9_empty_message_renders_no_block_witness :
    jsStrTruthy (remoteMessage (some
      { onboardingSettings := some
          { internalLink := ""
          , welcomeMessage := some
              { enabled := true, message := "", featuredMemberId := "m1"
              , featuredMemberResolvedAvatarUrl := "https://avatars.example.com/a1.png" }
          , recommendedRepositories := [] }
      , workspaceSharingDisabled := false
      , defaultWorkspaceImage := "" })) = false
    ∧ (welcomeMessagePreviewRender (some
      { onboardingSettings := some
          { internalLink := ""
          , welcomeMessage := some
              { enabled := true, message := "", featuredMemberId := "m1"
              , featuredMemberResolvedAvatarUrl := "https://avatars.example.com/a1.png" }
          , recommendedRepositories := [] }
      , workspaceSharingDisabled := false
      , defaultWorkspaceImage := "" }) false).messageBlock = none := by
  refine ⟨by decide, ?_⟩
  exact (C9_empty_message_renders_no_block _ false (by decide)).1

/-- C10: whenever the org settings' welcome message is disabled or absent
at any level of the option chain, the join modal renders nothing, and its
effect dismisses the pending onboarding: the React pending state becomes
false and, when localStorage is available, the persisted
newUserOnboardingPending flag is cleared — so the modal cannot appear later
even if the flag had been set. -/
theorem C10_join_modal_disabled (orgSettings : Option OrganizationSettings)
    (st : JoinModalState) (h : welcomeEnabled orgSettings = false) :
    joinModalRender orgSettings st = none
    ∧ joinModalRender orgSettings (joinModalEffect orgSettings st) = none
    ∧ (joinModalEffect orgSettings st).pending = false
    ∧ (st.storageOk = true → (joinModalEffect orgSettings st).storageFlag = false) := by
  refine ⟨?_, ?_, ?_, ?_⟩
  · simp [joinModalRender, h]
  · simp [joinModalRender, h]
  · simp [joinModalEffect, h, dismissPending]
  · intro hs
    simp [joinModalEffect, h, dismissPending, hs]

/-- C10 witness: welcome message explicitly disabled while the persisted
flag was previously set; nothing renders and both flag and pending state
are cleared. -/
theorem C10_join_modal_disabled_witness :
    welcomeEnabled (some orgRefetched) = false
    ∧ joinModalRender (some orgRefetched) (joinModalMount true true) = none
    ∧ (joinModalEffect (some orgRefetched) (joinModalMount true true)).pending = false
    ∧ (joinModalEffect (some orgRefetched) (joinModalMount true true)).storageFlag = false := by
  have h := C10_join_modal_disabled (some orgRefetched) (joinModalMount true true) (by decide)
  exact ⟨by decide, h.1, h.2.2.1, h.2.2.2 rfl⟩

end GitpodOnboarding
